import Mathlib

/-!
Verification of the cypress-display telemetry-to-guidance pipeline.

Shallow embedding of:
  * `src/cedar_client.rs` — the telemetry client (`get_state`, `get_state_impl`,
    wire-to-domain field mapping);
  * the guidance state machine of `src/main.rs` (poll loop lines 270-309:
    `last_slew` memory, `stale_angle` counter, `DrawState` production);
  * the rendering engine: both copies of `draw_operating_state` are embedded,
    the one in `src/renderer.rs` (functions named as in the source) and the
    variant inlined in `src/main.rs` (names carrying a `main_` marker), since
    the two differ at one decisive line: `renderer.rs` computes
    `is_current = stale_angle.is_none()` while `main.rs` computes
    `is_current = stale_angle.is_some()`;
  * `format_offset` (identical in both files) and the `RotatedDisplay`
    rotation adapter of `src/renderer.rs`.

Rust `f64` offset and angle fields are embedded as rationals; the floating
point trigonometry used by the arrow geometry is abstracted into an explicit
`Trig` record of functions (degrees in, value out), and `as i32` casts are
embedded as truncation toward zero.  Drawing is embedded as the list of
primitive drawing commands a call emits; a call that would panic (an
`Option::unwrap` on `None`) returns `none`.
-/

namespace CypressDisplay

/-! ## cedar_client.rs: domain types -/

/-- `ResponseStatus` of cedar_client.rs (lines 10-16). -/
inductive ResponseStatus where
  | Success
  | Disconnected
  | RpcFailed
  | NoState
deriving DecidableEq, Repr

/-- `ServerMode` of cedar_client.rs (lines 18-24). -/
inductive ServerMode where
  | Unknown
  | Setup
  | Calibrating
  | Operating
deriving DecidableEq, Repr

/-- `ServerState` of cedar_client.rs (lines 26-35); the `f64` fields are
embedded as rationals. -/
structure ServerState where
  server_mode : ServerMode
  is_alt_az : Bool
  has_slew_request : Bool
  rotation_target_distance : ℚ
  tilt_target_distance : ℚ
  target_angle : ℚ
  has_solution : Bool
deriving DecidableEq, Repr

/-- `CedarResponse` of cedar_client.rs (lines 37-41). -/
structure CedarResponse where
  status : ResponseStatus
  server_state : Option ServerState
deriving DecidableEq, Repr

/-- The string `format!("{:?}", status)` produces for each variant (the derived
`Debug` of `ResponseStatus` prints the bare variant name). -/
def ResponseStatus.debugString : ResponseStatus → String
  | .Success => "Success"
  | .Disconnected => "Disconnected"
  | .RpcFailed => "RpcFailed"
  | .NoState => "NoState"

/-! ## cedar_client.rs: wire frame and field mapping -/

/-- The `operation_settings` message as read by `get_state_impl`: only the
optional `operating_mode` enum field is consulted. -/
structure OperationSettings where
  operating_mode : Option Int
deriving DecidableEq, Repr

/-- The `preferences` message as read by `get_state_impl`: only the optional
`mount_type` enum field is consulted. -/
structure Preferences where
  mount_type : Option Int
deriving DecidableEq, Repr

/-- The `slew_request` message as read by `get_state_impl`. -/
structure SlewRequest where
  offset_rotation_axis : Option ℚ
  offset_tilt_axis : Option ℚ
  target_angle : Option ℚ
deriving DecidableEq, Repr

/-- The fields of the wire `FrameResult` that `get_state_impl` reads.  The
`plate_solution` message's contents are never read, only its presence, so it
is embedded as `Option Unit`. -/
structure FrameResult where
  has_result : Option Bool
  calibrating : Bool
  operation_settings : Option OperationSettings
  preferences : Option Preferences
  slew_request : Option SlewRequest
  plate_solution : Option Unit
deriving DecidableEq, Repr

/-- Modelled from the spec: the external `cedar_elements` proto crate (not in
src/) defines the `OperatingMode` enum with distinct integer codes for
`Setup` and `Operate`; only their distinctness matters to the mapping. -/
def operatingModeSetup : Int := 0

/-- Modelled from the spec: integer code of the wire `OperatingMode::Operate`
variant of the external proto crate. -/
def operatingModeOperate : Int := 1

/-- Modelled from the spec: integer code of the wire `MountType::AltAz`
variant of the external proto crate. -/
def mountTypeAltAz : Int := 1

/-- Outcome of the single `client.get_frame(request)` transport call made by
`get_state_impl`: a wire frame, or a transport error. -/
inductive GrpcResult where
  | ok (frame : FrameResult)
  | err
deriving DecidableEq, Repr

/-- `CedarClient::get_state_impl` (cedar_client.rs lines 83-157): classify the
transport outcome and map wire fields to a `ServerState`. -/
def get_state_impl : GrpcResult → CedarResponse
  | .err => { status := .RpcFailed, server_state := none }
  | .ok frame =>
    if !(frame.has_result.getD false) then
      { status := .NoState, server_state := none }
    else
      let server_mode : ServerMode :=
        if frame.calibrating then .Calibrating
        else
          match frame.operation_settings with
          | some op_settings =>
            match op_settings.operating_mode with
            | some mode =>
              if mode = operatingModeSetup then .Setup
              else if mode = operatingModeOperate then .Operating
              else .Unknown
            | none => .Unknown
          | none => .Unknown
      let is_alt_az : Bool :=
        match frame.preferences with
        | some prefs =>
          match prefs.mount_type with
          | some mount => mount = mountTypeAltAz
          | none => false
        | none => false
      let slewRead : Bool × ℚ × ℚ × ℚ :=
        match frame.slew_request with
        | some slew =>
          (true, slew.offset_rotation_axis.getD 0, slew.offset_tilt_axis.getD 0,
            slew.target_angle.getD 0)
        | none => (false, 0, 0, 0)
      let state : ServerState :=
        { server_mode := server_mode
          is_alt_az := is_alt_az
          has_slew_request := slewRead.1
          rotation_target_distance := slewRead.2.1
          tilt_target_distance := slewRead.2.2.1
          target_angle := slewRead.2.2.2
          has_solution := frame.plate_solution.isSome }
      { status := .Success, server_state := some state }

/-- `CedarClient` (cedar_client.rs lines 43-45): the held connection is
abstracted to `Option Unit`. -/
structure CedarClient where
  client : Option Unit
deriving DecidableEq, Repr

/-- `CedarClient::try_to_connect` (cedar_client.rs lines 71-81):
`connectResult` is the outcome of `GrpcClient::connect`; on error the held
connection is left as it was (`None`). -/
def try_to_connect (c : CedarClient) (connectResult : Option Unit) : CedarClient :=
  match connectResult with
  | some conn => { client := some conn }
  | none => c

/-- `CedarClient::get_state` (cedar_client.rs lines 54-68), with the two
external effects (connection attempt, transport call) passed in as values. -/
def CedarClient.get_state (c : CedarClient) (connectResult : Option Unit)
    (grpc : GrpcResult) : CedarClient × CedarResponse :=
  let c1 := if c.client.isNone then try_to_connect c connectResult else c
  if c1.client.isNone then
    (c1, { status := .Disconnected, server_state := none })
  else
    (c1, get_state_impl grpc)

/-! ## main.rs: the guidance state machine (poll loop lines 270-309) -/

/-- `DrawState` (main.rs lines 74-78 and renderer.rs lines 36-40); the
borrowed snapshot is embedded by value. -/
inductive DrawState where
  | Message (text : String)
  | Operating (state : ServerState) (stale_angle : Option Nat)
deriving DecidableEq, Repr

/-- The mutable state the poll loop threads across ticks: `last_slew`
(main.rs line 270) and `stale_angle` (main.rs line 271). -/
structure GuidanceMemory where
  last_slew : Option ServerState
  stale_angle : Nat
deriving DecidableEq, Repr

/-- One iteration of the poll loop's draw-state derivation (main.rs lines
283-309): consumes a `CedarResponse`, yields the updated memory and the
`DrawState` for the tick. -/
def advance (mem : GuidanceMemory) (resp : CedarResponse) : GuidanceMemory × DrawState :=
  if resp.status ≠ .Success then
    (mem, .Message resp.status.debugString)
  else
    match resp.server_state with
    | some state =>
      match state.server_mode with
      | .Operating =>
        if !state.has_slew_request then
          let mem1 := if state.has_solution then { mem with last_slew := none } else mem
          match mem1.last_slew with
          | some slew =>
            ({ mem1 with stale_angle := (mem1.stale_angle + 9) % 360 },
              .Operating slew (some mem1.stale_angle))
          | none => (mem1, .Message "No Target")
        else
          ({ mem with last_slew := some state }, .Operating state none)
      | .Calibrating => (mem, .Message "Calibrating")
      | _ => (mem, .Message "Setup Mode")
    | none => (mem, .Message "...")

/-- The poll loop run over a list of responses: final memory and the
per-tick draw states, in order. -/
def runTicks (mem : GuidanceMemory) : List CedarResponse → GuidanceMemory × List DrawState
  | [] => (mem, [])
  | r :: rs =>
    let step := advance mem r
    let rest := runTicks step.1 rs
    (rest.1, step.2 :: rest.2)

/-! ## format_offset (main.rs lines 498-507, renderer.rs lines 289-298) -/

/-- Character for the decimal digit `d`. -/
def digitChar (d : Nat) : Char := Char.ofNat (48 + d)

/-- Base-10 digit expansion with structural fuel (fuel `n + 1` always
suffices for `n`). -/
def natDigitsCore : Nat → Nat → List Char → List Char
  | 0, _, acc => acc
  | fuel + 1, n, acc =>
    if n < 10 then digitChar n :: acc
    else natDigitsCore fuel (n / 10) (digitChar (n % 10) :: acc)

/-- Decimal digits of `n`, most significant first. -/
def natDigits (n : Nat) : List Char := natDigitsCore (n + 1) n []

/-- Round `q * 10 ^ k` to the nearest integer (half away from zero upward):
`⌊q * 10 ^ k + 1 / 2⌋` written over the numerator and denominator so that it
evaluates by integer arithmetic. -/
def roundScaled (k : Nat) (q : ℚ) : Int :=
  (2 * q.num * (10 : Int) ^ k + q.den).fdiv (2 * q.den)

/-- Render a nonnegative integer `scaled` (the value already multiplied by
`10 ^ k`) as a decimal numeral with `k` digits after the point; `k = 0`
renders no point at all. -/
def formatScaled (k : Nat) (scaled : Nat) : String :=
  let ds := natDigits scaled
  if k = 0 then ⟨ds⟩
  else
    let padded := List.replicate (k + 1 - ds.length) '0' ++ ds
    ⟨padded.take (padded.length - k) ++ '.' :: padded.drop (padded.length - k)⟩

/-- Embedding of Rust `format!("{:.k}", n)` for a nonnegative rational `n`:
fixed-point decimal with `k` digits after the point. -/
def formatFixed (k : Nat) (q : ℚ) : String := formatScaled k (roundScaled k q).toNat

/-- `format_offset` (main.rs lines 498-507 and, identically, renderer.rs
lines 289-298). -/
def format_offset (num : ℚ) : String :=
  let n := |num|
  if n ≥ 100 then formatFixed 0 n
  else if n ≥ 10 then formatFixed 1 n
  else formatFixed 2 n

/-- Modelled from the spec: "let `n = |v|`; if `n >= 100` show 0 decimal
places, if `10 <= n < 100` show 1 decimal place, else show 2 decimal
places". -/
def spec_decimal_places (n : ℚ) : Nat :=
  if 100 ≤ n then 0 else if 10 ≤ n then 1 else 2

/-! ## Rendering: drawing commands -/

/-- Colors the renderer uses: `FG_COLOR` (red), `BG_COLOR` (black),
`STALE_COLOR` (maroon, renderer.rs line 27). -/
inductive Color where
  | red
  | black
  | maroon
deriving DecidableEq, Repr

/-- Which font singleton a text call uses. -/
inductive FontChoice where
  | status
  | guidance
deriving DecidableEq, Repr

/-- `VerticalPosition` values used by the renderer. -/
inductive VPos where
  | top
  | center
  | baseline
deriving DecidableEq, Repr

/-- `HorizontalAlignment` values used by the renderer. -/
inductive HAlign where
  | left
  | center
  | right
deriving DecidableEq, Repr

/-- `Point` of embedded-graphics: a signed pixel coordinate. -/
structure Point where
  x : Int
  y : Int
deriving DecidableEq, Repr

/-- One primitive drawing command the rendering code emits: a
`render_aligned` text call, a styled `Line`, a filled or stroked `Triangle`,
or a styled `Arc` (top-left corner, diameter, start angle and sweep in
degrees). -/
inductive DrawOp where
  | text (font : FontChoice) (s : String) (p : Point) (vert : VPos) (horiz : HAlign)
      (color : Color)
  | line (a b : Point) (strokeWidth : Nat) (color : Color)
  | triangleFill (a b c : Point) (color : Color)
  | triangleStroke (a b c : Point) (strokeWidth : Nat) (color : Color)
  | arc (topLeft : Point) (diameter : Nat) (angleStart : ℚ) (angleSweep : ℚ)
      (strokeWidth : Nat) (color : Color)
deriving DecidableEq, Repr

/-- True exactly on `arc` commands. -/
def DrawOp.isArc : DrawOp → Bool
  | .arc _ _ _ _ _ _ => true
  | _ => false

/-- True exactly on `line` commands (the renderer draws a line only as the
target-direction arrow's shaft). -/
def DrawOp.isLine : DrawOp → Bool
  | .line _ _ _ _ => true
  | _ => false

/-- True exactly on filled-triangle commands. -/
def DrawOp.isTriangleFill : DrawOp → Bool
  | .triangleFill _ _ _ _ => true
  | _ => false

/-- True exactly on text commands anchored at the canvas origin — the
cardinal letter at the top left; no other text call in the program is
anchored there. -/
def DrawOp.isLetterTopLeft : DrawOp → Bool
  | .text _ _ p _ _ _ => p = { x := 0, y := 0 }
  | _ => false

/-! ## Rendering: geometry helpers -/

/-- Truncation toward zero, the semantics of Rust `as i32` on a finite real
value. -/
def truncQ (q : ℚ) : Int := if q < 0 then -⌊-q⌋ else ⌊q⌋

/-- Abstraction of the `f64` trigonometry the arrow geometry uses: `cos` and
`sin` take the angle in degrees (the source's `.to_radians()` conversion is
folded into the abstracted functions). -/
structure Trig where
  cos : ℚ → ℚ
  sin : ℚ → ℚ

/-- A trig assignment that sends every angle to 0; used to evaluate the
renderers on concrete inputs. -/
def trigZero : Trig := { cos := fun _ => 0, sin := fun _ => 0 }

/-- The two right-aligned offset numerals (tilt top right, rotation bottom
right), common to both copies of `draw_operating_state`. -/
def offsetTextOps (tilt rot : ℚ) : List DrawOp :=
  [ .text .guidance (format_offset tilt) { x := 127, y := 0 } .top .right .red,
    .text .guidance (format_offset rot) { x := 127, y := 127 } .baseline .right .red ]

/-- The two cardinal-direction letters ("N"/"S" top left, "E"/"W" bottom
left) in the given color. -/
def letterOps (color : Color) (tilt rot : ℚ) : List DrawOp :=
  [ .text .guidance (if tilt > 0 then "N" else "S") { x := 0, y := 0 } .top .left color,
    .text .guidance (if rot > 0 then "E" else "W") { x := 0, y := 127 } .baseline .left
      color ]

/-- The two alt-az direction triangles; filled (`TRIANGLE_STYLE`) when
`fill`, stroked with width `staleStroke` (`TRIANGLE_STALE_STYLE`: width 1 in
renderer.rs, width 2 in main.rs) otherwise. -/
def triangleOps (fill : Bool) (staleStroke : Nat) (tilt rot : ℚ) : List DrawOp :=
  let mk : Point → Point → Point → DrawOp := fun a b c =>
    if fill then .triangleFill a b c .red else .triangleStroke a b c staleStroke .red
  [ (if tilt > 0 then
      mk { x := 15, y := 0 } { x := 0, y := 30 } { x := 30, y := 30 }
    else
      mk { x := 0, y := 0 } { x := 30, y := 0 } { x := 15, y := 30 }),
    (if rot > 0 then
      mk { x := 0, y := 97 } { x := 0, y := 127 } { x := 30, y := 112 }
    else
      mk { x := 30, y := 97 } { x := 30, y := 127 } { x := 0, y := 112 }) ]

/-- The target-direction arrow (renderer.rs lines 238-287, main.rs lines
447-496): shaft from tail to head-base-center, then the filled arrowhead.
`display_angle = target_angle + 90` degrees; total length 40, head length
and width 12. -/
def arrowOps (trig : Trig) (target_angle : ℚ) : List DrawOp :=
  let display_angle := target_angle + 90
  let total_len : ℚ := 40
  let half_len := total_len / 2
  let head_len : ℚ := 12
  let head_width : ℚ := 12
  let cos_a := trig.cos display_angle
  let sin_a := trig.sin display_angle
  let tip : Point := { x := 64 + truncQ (half_len * cos_a), y := 64 - truncQ (half_len * sin_a) }
  let tail : Point := { x := 64 - truncQ (half_len * cos_a), y := 64 + truncQ (half_len * sin_a) }
  let head_base_offset := half_len - head_len
  let head_base_center : Point :=
    { x := 64 + truncQ (head_base_offset * cos_a), y := 64 - truncQ (head_base_offset * sin_a) }
  let half_width := head_width / 2
  let corner1 : Point :=
    { x := head_base_center.x + truncQ (half_width * trig.cos (display_angle + 90)),
      y := head_base_center.y - truncQ (half_width * trig.sin (display_angle + 90)) }
  let corner2 : Point :=
    { x := head_base_center.x + truncQ (half_width * trig.cos (display_angle - 90)),
      y := head_base_center.y - truncQ (half_width * trig.sin (display_angle - 90)) }
  [ .line tail head_base_center 3 .red,
    .triangleFill tip corner1 corner2 .red ]

/-- The rotating stale-indicator arc (top-left (44,44), diameter 40, start
angle the stale phase, sweep 90 degrees, stroke 3). -/
def arcOp (a : Nat) : DrawOp :=
  .arc { x := 44, y := 44 } 40 (a : ℚ) 90 3 .red

/-! ## Rendering: renderer.rs draw_operating_state (lines 146-287) -/

/-- `draw_operating_state` of renderer.rs: the commands it draws, in order,
or `none` if it would panic (`stale_angle.unwrap()` on `None`; the source
computes `is_current = stale_angle.is_none()` at line 151, so the unwrap at
line 229 runs only under `!is_current`). -/
def draw_operating_state (trig : Trig) (state : ServerState) (stale_angle : Option Nat) :
    Option (List DrawOp) :=
  let is_current := stale_angle.isNone
  let tilt := state.tilt_target_distance
  let rot := state.rotation_target_distance
  let base := offsetTextOps tilt rot
  let dir : List DrawOp :=
    if !state.is_alt_az then
      letterOps (if is_current then .red else .maroon) tilt rot
    else
      triangleOps is_current 1 tilt rot
  if !is_current then
    match stale_angle with
    | some a => some (base ++ dir ++ [arcOp a])
    | none => none
  else
    some (base ++ dir ++ arrowOps trig state.target_angle)

/-- `draw_ui` of renderer.rs (lines 122-144): a centered status message, or
`draw_operating_state`. -/
def draw_ui (trig : Trig) (s : DrawState) : Option (List DrawOp) :=
  match s with
  | .Message msg =>
    some [.text .status msg { x := 64, y := 64 } .center .center .red]
  | .Operating state stale => draw_operating_state trig state stale

/-! ## Rendering: the main.rs copy of draw_operating_state (lines 354-496) -/

/-- `draw_operating_state` as inlined in main.rs: identical to the
renderer.rs copy except that line 359 computes
`is_current = stale_angle.is_some()` (renderer.rs has `is_none()`), the
cardinal letters blink — drawn only when `is_current || stale_angle.unwrap()
% 72 < 36` (line 386) and always in `FG_COLOR` — and the stale triangle
stroke is 2.  `none` models a panicking `unwrap` of `None`. -/
def main_draw_operating_state (trig : Trig) (state : ServerState)
    (stale_angle : Option Nat) : Option (List DrawOp) :=
  let is_current := stale_angle.isSome
  let tilt := state.tilt_target_distance
  let rot := state.rotation_target_distance
  let base := offsetTextOps tilt rot
  let dirOps : Option (List DrawOp) :=
    if !state.is_alt_az then
      let visible : Option Bool :=
        if is_current then some true
        else
          match stale_angle with
          | some a => some (decide (a % 72 < 36))
          | none => none
      visible.map (fun v => if v then letterOps .red tilt rot else [])
    else
      some (triangleOps is_current 2 tilt rot)
  match dirOps with
  | none => none
  | some dir =>
    if !is_current then
      match stale_angle with
      | some a => some (base ++ dir ++ [arcOp a])
      | none => none
    else
      some (base ++ dir ++ arrowOps trig state.target_angle)

/-- `draw_ui` of main.rs (lines 330-352), dispatching to the main.rs copy of
`draw_operating_state`. -/
def main_draw_ui (trig : Trig) (s : DrawState) : Option (List DrawOp) :=
  match s with
  | .Message msg =>
    some [.text .status msg { x := 64, y := 64 } .center .center .red]
  | .Operating state stale => main_draw_operating_state trig state stale

/-! ## Rendering: the rotation adapter (renderer.rs lines 42-119) -/

/-- `Rotation` of renderer.rs (clockwise). -/
inductive Rotation where
  | Deg0
  | Deg90
  | Deg180
  | Deg270
deriving DecidableEq, Repr

/-- The per-pixel coordinate remapping of `RotatedDisplay::draw_iter`
(renderer.rs lines 107-115), with `max_x = width - 1` and
`max_y = height - 1` of the parent. -/
def rotatePoint (rotation : Rotation) (max_x max_y : Int) (pt : Point) : Point :=
  match rotation with
  | .Deg0 => pt
  | .Deg90 => { x := max_x - pt.y, y := pt.x }
  | .Deg180 => { x := max_x - pt.x, y := max_y - pt.y }
  | .Deg270 => { x := pt.y, y := max_y - pt.x }

/-- The 128×128 `Framebuffer` of main.rs (lines 80-119) / web.rs: a
row-major pixel store indexed by `y * 128 + x`. -/
structure Framebuffer (C : Type) where
  pixels : Nat → C

/-- `Framebuffer::draw_iter` (main.rs lines 106-118): write each in-bounds
pixel at index `y * 128 + x`; out-of-bounds pixels are silently dropped. -/
def Framebuffer.draw_iter {C : Type} (fb : Framebuffer C) (ps : List (Point × C)) :
    Framebuffer C :=
  ps.foldl
    (fun fb pc =>
      if 0 ≤ pc.1.x ∧ pc.1.x < 128 ∧ 0 ≤ pc.1.y ∧ pc.1.y < 128 then
        { pixels := Function.update fb.pixels (pc.1.y.toNat * 128 + pc.1.x.toNat) pc.2 }
      else fb)
    fb

/-- `RotatedDisplay` (renderer.rs lines 63-66) over a 128×128 parent. -/
structure RotatedDisplay (C : Type) where
  parent : Framebuffer C
  rotation : Rotation

/-- `RotatedDisplay::draw_iter` (renderer.rs lines 99-118): remap every
pixel's logical coordinate by `rotatePoint` (the parent is 128×128, so
`max_x = max_y = 127`) and hand the result to the parent. -/
def RotatedDisplay.draw_iter {C : Type} (d : RotatedDisplay C) (ps : List (Point × C)) :
    RotatedDisplay C :=
  { d with
    parent := d.parent.draw_iter (ps.map fun pc => (rotatePoint d.rotation 127 127 pc.1, pc.2)) }

/-! ## Sample values for concrete evaluations -/

/-- A live equatorial Operating snapshot (tilt 1, rotation 2, angle 3). -/
def eqSnapshot : ServerState :=
  { server_mode := .Operating, is_alt_az := false, has_slew_request := true,
    rotation_target_distance := 2, tilt_target_distance := 1, target_angle := 3,
    has_solution := false }

/-- An alt-az Operating snapshot (tilt 1, rotation 2, angle 3). -/
def altAzSnapshot : ServerState :=
  { server_mode := .Operating, is_alt_az := true, has_slew_request := true,
    rotation_target_distance := 2, tilt_target_distance := 1, target_angle := 3,
    has_solution := false }

/-- An Operating-mode snapshot with an active slew request. -/
def slewSnap (alt : Bool) (r t a : ℚ) (sol : Bool) : ServerState :=
  { server_mode := .Operating, is_alt_az := alt, has_slew_request := true,
    rotation_target_distance := r, tilt_target_distance := t, target_angle := a,
    has_solution := sol }

/-- An Operating-mode snapshot with no slew request. -/
def idleSnap (alt : Bool) (r t a : ℚ) (sol : Bool) : ServerState :=
  { server_mode := .Operating, is_alt_az := alt, has_slew_request := false,
    rotation_target_distance := r, tilt_target_distance := t, target_angle := a,
    has_solution := sol }

/-- A successful poll response carrying the given snapshot. -/
def okResp (s : ServerState) : CedarResponse :=
  { status := .Success, server_state := some s }

/-! ## Helper lemmas -/

theorem digitChar_ne_minus {d : Nat} (h : d < 10) : digitChar d ≠ '-' := by
  interval_cases d <;> decide

theorem natDigitsCore_ne_minus :
    ∀ (fuel n : Nat) (acc : List Char), (∀ c ∈ acc, c ≠ '-') →
      ∀ c ∈ natDigitsCore fuel n acc, c ≠ '-' := by
  intro fuel
  induction fuel with
  | zero => intro n acc hacc c hc; exact hacc c hc
  | succ fuel ih =>
    intro n acc hacc c hc
    rw [natDigitsCore] at hc
    split at hc
    · rcases List.mem_cons.1 hc with hc | hc
      · exact hc ▸ digitChar_ne_minus (by omega)
      · exact hacc c hc
    · refine ih (n / 10) _ ?_ c hc
      intro c' hc'
      rcases List.mem_cons.1 hc' with hc' | hc'
      · exact hc' ▸ digitChar_ne_minus (Nat.mod_lt _ (by omega))
      · exact hacc c' hc'

theorem natDigits_ne_minus (n : Nat) : ∀ c ∈ natDigits n, c ≠ '-' := by
  exact natDigitsCore_ne_minus (n + 1) n [] (by intro c hc; cases hc)

theorem formatScaled_ne_minus (k scaled : Nat) :
    ('-') ∉ (formatScaled k scaled).toList := by
  intro hmem
  unfold formatScaled at hmem
  split at hmem
  · exact natDigits_ne_minus scaled '-' hmem rfl
  · simp only [String.toList] at hmem
    rcases List.mem_append.1 hmem with h | h
    · have h2 := List.take_subset _ _ h
      rcases List.mem_append.1 h2 with h3 | h3
      · exact absurd (List.eq_of_mem_replicate h3) (by decide)
      · exact natDigits_ne_minus scaled '-' h3 rfl
    · rcases List.mem_cons.1 h with h | h
      · exact absurd h (by decide)
      · have h2 := List.drop_subset _ _ h
        rcases List.mem_append.1 h2 with h3 | h3
        · exact absurd (List.eq_of_mem_replicate h3) (by decide)
        · exact natDigits_ne_minus scaled '-' h3 rfl

/-! ## Claim theorems -/

/-- C8: `format_offset` drops the sign of its argument, renders `n = |v|`
with 0 decimal places when `n ≥ 100`, 1 when `10 ≤ n < 100` and 2 otherwise
(the spec's decimal-places rule, `spec_decimal_places`), never emits a
minus sign, and on the spec's four examples produces "5.40", "12.3", "123"
and "7.00". -/
theorem c8_format_offset_spec :
    (∀ v : ℚ, format_offset v = format_offset |v|) ∧
    (∀ v : ℚ, format_offset v = formatFixed (spec_decimal_places |v|) |v|) ∧
    (∀ v : ℚ, ('-') ∉ (format_offset v).toList) ∧
    format_offset (5.4 : ℚ) = "5.40" ∧
    format_offset (12.34 : ℚ) = "12.3" ∧
    format_offset (123.4 : ℚ) = "123" ∧
    format_offset (-7 : ℚ) = "7.00" := by
  have key : ∀ v : ℚ, format_offset v = formatFixed (spec_decimal_places |v|) |v| := by
    intro v
    simp only [format_offset, spec_decimal_places]
    split_ifs <;> rfl
  have absved : ∀ v : ℚ, format_offset v = format_offset |v| := by
    intro v
    rw [key v, key |v|, abs_abs]
  refine ⟨absved, key, ?_, ?_, ?_, ?_, ?_⟩
  · intro v
    rw [key v]
    unfold formatFixed
    exact formatScaled_ne_minus _ _
  · rw [key, show |(5.4 : ℚ)| = 5.4 by norm_num]
    unfold spec_decimal_places
    rw [if_neg (by norm_num), if_neg (by norm_num)]
    unfold formatFixed roundScaled
    rw [show ((5.4 : ℚ)).num = 27 by norm_num, show ((5.4 : ℚ)).den = 5 by norm_num]
    decide
  · rw [key, show |(12.34 : ℚ)| = 12.34 by norm_num]
    unfold spec_decimal_places
    rw [if_neg (by norm_num), if_pos (by norm_num)]
    unfold formatFixed roundScaled
    rw [show ((12.34 : ℚ)).num = 617 by norm_num, show ((12.34 : ℚ)).den = 50 by norm_num]
    decide
  · rw [key, show |(123.4 : ℚ)| = 123.4 by norm_num]
    unfold spec_decimal_places
    rw [if_pos (by norm_num)]
    unfold formatFixed roundScaled
    rw [show ((123.4 : ℚ)).num = 617 by norm_num, show ((123.4 : ℚ)).den = 5 by norm_num]
    decide
  · rw [key, show |(-7 : ℚ)| = 7 by norm_num]
    unfold spec_decimal_places
    rw [if_neg (by norm_num), if_neg (by norm_num)]
    unfold formatFixed roundScaled
    rw [show ((7 : ℚ)).num = 7 by norm_num, show ((7 : ℚ)).den = 1 by norm_num]
    decide

/-- C2: with any stored last-active snapshot `A`, a successful Operating
snapshot with `has_slew_request = false` and `has_solution = true` clears
the memory before the stale fallback is consulted, so the tick emits
`Message "No Target"` (and the phase is untouched). -/
theorem c2_solution_clears_memory :
    ∀ (A : ServerState) (phase : Nat) (alt : Bool) (r t a : ℚ),
      advance { last_slew := some A, stale_angle := phase }
          (okResp (idleSnap alt r t a true)) =
        ({ last_slew := none, stale_angle := phase }, .Message "No Target") := by
  intro A phase alt r t a
  rfl

/-- C7: every non-Success poll outcome yields `Message` with the variant's
own `Debug` label, leaving both the stored snapshot and the stale phase
untouched; the three labels are pairwise distinct. -/
theorem c7_non_success_labels :
    (∀ (mem : GuidanceMemory) (st : Option ServerState),
        advance mem { status := .Disconnected, server_state := st } =
          (mem, .Message (ResponseStatus.Disconnected).debugString)) ∧
    (∀ (mem : GuidanceMemory) (st : Option ServerState),
        advance mem { status := .RpcFailed, server_state := st } =
          (mem, .Message (ResponseStatus.RpcFailed).debugString)) ∧
    (∀ (mem : GuidanceMemory) (st : Option ServerState),
        advance mem { status := .NoState, server_state := st } =
          (mem, .Message (ResponseStatus.NoState).debugString)) ∧
    (ResponseStatus.Disconnected).debugString ≠ (ResponseStatus.RpcFailed).debugString ∧
    (ResponseStatus.Disconnected).debugString ≠ (ResponseStatus.NoState).debugString ∧
    (ResponseStatus.RpcFailed).debugString ≠ (ResponseStatus.NoState).debugString := by
  exact ⟨fun mem st => rfl, fun mem st => rfl, fun mem st => rfl,
    by decide, by decide, by decide⟩

/-- C6: for every wire frame fetched with a result (`has_result = some
true`), the calibrating flag forces mode `Calibrating` regardless of all
other fields; otherwise operating-mode `Operate` maps to `Operating`,
`Setup` maps to `Setup`, and an absent operating-mode field (whether the
whole `operation_settings` message or just its mode field is missing) maps
to `Unknown`. -/
theorem c6_mode_mapping :
    (∀ (os : Option OperationSettings) (prefs : Option Preferences)
        (slew : Option SlewRequest) (ps : Option Unit),
        ((get_state_impl (.ok
            { has_result := some true, calibrating := true, operation_settings := os,
              preferences := prefs, slew_request := slew,
              plate_solution := ps })).server_state.map (·.server_mode)) =
          some .Calibrating) ∧
    (∀ (prefs : Option Preferences) (slew : Option SlewRequest) (ps : Option Unit),
        ((get_state_impl (.ok
            { has_result := some true, calibrating := false,
              operation_settings := some { operating_mode := some operatingModeOperate },
              preferences := prefs, slew_request := slew,
              plate_solution := ps })).server_state.map (·.server_mode)) =
          some .Operating) ∧
    (∀ (prefs : Option Preferences) (slew : Option SlewRequest) (ps : Option Unit),
        ((get_state_impl (.ok
            { has_result := some true, calibrating := false,
              operation_settings := some { operating_mode := some operatingModeSetup },
              preferences := prefs, slew_request := slew,
              plate_solution := ps })).server_state.map (·.server_mode)) =
          some .Setup) ∧
    (∀ (prefs : Option Preferences) (slew : Option SlewRequest) (ps : Option Unit),
        ((get_state_impl (.ok
            { has_result := some true, calibrating := false, operation_settings := none,
              preferences := prefs, slew_request := slew,
              plate_solution := ps })).server_state.map (·.server_mode)) =
          some .Unknown) ∧
    (∀ (prefs : Option Preferences) (slew : Option SlewRequest) (ps : Option Unit),
        ((get_state_impl (.ok
            { has_result := some true, calibrating := false,
              operation_settings := some { operating_mode := none },
              preferences := prefs, slew_request := slew,
              plate_solution := ps })).server_state.map (·.server_mode)) =
          some .Unknown) := by
  exact ⟨fun os prefs slew ps => rfl, fun prefs slew ps => rfl, fun prefs slew ps => rfl,
    fun prefs slew ps => rfl, fun prefs slew ps => rfl⟩

theorem get_state_impl_inv (g : GrpcResult) :
    ((get_state_impl g).status = .Success ↔ (get_state_impl g).server_state.isSome = true) ∧
    ((get_state_impl g).status ≠ .Success → (get_state_impl g).server_state = none) := by
  cases g with
  | err => simp [get_state_impl]
  | ok frame =>
    cases h : frame.has_result.getD false <;> simp [get_state_impl, h]

/-- C10: every `CedarResponse` out of `CedarClient::get_state` has status
`Success` exactly when it carries a `server_state`; every non-Success
response (Disconnected, RpcFailed, NoState) carries `none`. -/
theorem c10_response_invariant :
    ∀ (c : CedarClient) (connectResult : Option Unit) (grpc : GrpcResult),
      (((c.get_state connectResult grpc).2.status = .Success) ↔
        ((c.get_state connectResult grpc).2.server_state.isSome = true)) ∧
      ((c.get_state connectResult grpc).2.status ≠ .Success →
        (c.get_state connectResult grpc).2.server_state = none) := by
  intro c connectResult grpc
  rcases c with ⟨_ | conn⟩
  · rcases connectResult with _ | u
    · constructor <;> simp [CedarClient.get_state, try_to_connect]
    · simpa [CedarClient.get_state, try_to_connect] using get_state_impl_inv grpc
  · simpa [CedarClient.get_state, try_to_connect] using get_state_impl_inv grpc

/-- C9: on the 128×128 canvas, a pixel drawn at logical (0,0) through the
90-degree rotation adapter lands at physical (127,0) (row-major index
`0 * 128 + 127 = 127`), and four successive applications of the 90-degree
coordinate mapping return every in-bounds coordinate to itself. -/
theorem c9_rotation_adapter :
    (∀ (C : Type) (fb : Framebuffer C) (c : C),
        ((RotatedDisplay.mk fb .Deg90).draw_iter
            [({ x := 0, y := 0 }, c)]).parent.pixels 127 = c) ∧
    (∀ pt : Point, 0 ≤ pt.x → pt.x < 128 → 0 ≤ pt.y → pt.y < 128 →
        rotatePoint .Deg90 127 127 (rotatePoint .Deg90 127 127
          (rotatePoint .Deg90 127 127 (rotatePoint .Deg90 127 127 pt))) = pt) := by
  constructor
  · intro C fb c
    simp [RotatedDisplay.draw_iter, Framebuffer.draw_iter, rotatePoint, Function.update]
  · intro pt h1 h2 h3 h4
    cases pt
    simp only [rotatePoint, Point.mk.injEq]
    omega

/-- C9 witness: the coordinate round trip evaluated at the in-bounds pixel
(5, 7). -/
theorem c9_rotation_adapter_witness :
    rotatePoint .Deg90 127 127 (rotatePoint .Deg90 127 127
      (rotatePoint .Deg90 127 127 (rotatePoint .Deg90 127 127 { x := 5, y := 7 }))) =
      { x := 5, y := 7 } :=
  c9_rotation_adapter.2 { x := 5, y := 7 } (by decide) (by decide) (by decide) (by decide)

/-- C1: from empty memory and phase 0, the sequence [Operating slewing `A`,
Operating not-slewing no-solution, Operating not-slewing no-solution]
produces [Operating `A` live, Operating `A` stale phase 0, Operating `A`
stale phase 9]; in general a tick whose output is a stale render emits the
current phase and advances it by exactly 9 modulo 360, and every tick
either leaves the phase unchanged or performs exactly that stale advance
(it is never reset otherwise). -/
theorem c1_stale_phase_behavior :
    (∀ (alt : Bool) (r t a : ℚ) (sol : Bool) (alt2 : Bool) (r2 t2 a2 : ℚ)
        (alt3 : Bool) (r3 t3 a3 : ℚ),
        (runTicks { last_slew := none, stale_angle := 0 }
            [okResp (slewSnap alt r t a sol), okResp (idleSnap alt2 r2 t2 a2 false),
              okResp (idleSnap alt3 r3 t3 a3 false)]).2 =
          [.Operating (slewSnap alt r t a sol) none,
            .Operating (slewSnap alt r t a sol) (some 0),
            .Operating (slewSnap alt r t a sol) (some 9)]) ∧
    (∀ (mem : GuidanceMemory) (resp : CedarResponse) (s : ServerState) (p : Nat),
        (advance mem resp).2 = .Operating s (some p) →
          p = mem.stale_angle ∧
          (advance mem resp).1.stale_angle = (mem.stale_angle + 9) % 360) ∧
    (∀ (mem : GuidanceMemory) (resp : CedarResponse),
        (advance mem resp).1.stale_angle = mem.stale_angle ∨
        ((∃ s, (advance mem resp).2 = .Operating s (some mem.stale_angle)) ∧
          (advance mem resp).1.stale_angle = (mem.stale_angle + 9) % 360)) := by
  refine ⟨fun alt r t a sol alt2 r2 t2 a2 alt3 r3 t3 a3 => rfl, ?_, ?_⟩
  · intro mem resp s p h
    rcases mem with ⟨lslew, phase⟩
    rcases resp with ⟨status, sstate⟩
    rcases sstate with _ | ⟨mode, alt, slew, r, t, a, sol⟩
    · cases status <;> simp [advance] at h
    · cases status
      case Success =>
        cases mode
        case Operating =>
          cases slew
          case false =>
            cases sol
            case false =>
              rcases lslew with _ | prev
              · simp [advance] at h
              · simp [advance] at h
                exact ⟨h.2.symm, rfl⟩
            case true => simp [advance] at h
          case true => simp [advance] at h
        all_goals simp [advance] at h
      all_goals simp [advance] at h
  · intro mem resp
    rcases mem with ⟨lslew, phase⟩
    rcases resp with ⟨status, sstate⟩
    rcases sstate with _ | ⟨mode, alt, slew, r, t, a, sol⟩
    · cases status <;> exact Or.inl rfl
    · cases status
      case Success =>
        cases mode
        case Operating =>
          cases slew
          case false =>
            cases sol
            case false =>
              rcases lslew with _ | prev
              · exact Or.inl rfl
              · exact Or.inr ⟨⟨prev, rfl⟩, rfl⟩
            case true => exact Or.inl rfl
          case true => exact Or.inl rfl
        all_goals exact Or.inl rfl
      all_goals exact Or.inl rfl

/-- C1 witness: the stale-advance law applied at a concrete memory (stored
snapshot, phase 27) and a concrete not-slewing Operating response. -/
theorem c1_stale_phase_behavior_witness :
    (27 : Nat) = 27 ∧
    (advance { last_slew := some eqSnapshot, stale_angle := 27 }
        (okResp (idleSnap false 0 0 0 false))).1.stale_angle = (27 + 9) % 360 :=
  c1_stale_phase_behavior.2.1
    { last_slew := some eqSnapshot, stale_angle := 27 }
    (okResp (idleSnap false 0 0 0 false)) eqSnapshot 27 rfl

/-- C3: the renderer.rs rendering operations are total — `draw_operating_state`
and `draw_ui` emit a command list for every input, live or stale — but the
main.rs copy of `draw_operating_state` (which computes
`is_current = stale_angle.is_some()`) reaches `stale_angle.unwrap()` and
panics (modelled as `none`) on every live Operating input, equatorial or
alt-az, and so does the main.rs `draw_ui` on a live Operating draw state. -/
theorem c3_render_never_fails :
    (∀ (trig : Trig) (state : ServerState) (stale : Option Nat),
        (draw_operating_state trig state stale).isSome = true) ∧
    (∀ (trig : Trig) (s : DrawState), (draw_ui trig s).isSome = true) ∧
    main_draw_operating_state trigZero eqSnapshot none = none ∧
    main_draw_operating_state trigZero altAzSnapshot none = none ∧
    main_draw_ui trigZero (.Operating eqSnapshot none) = none := by
  have h1 : ∀ (trig : Trig) (state : ServerState) (stale : Option Nat),
      (draw_operating_state trig state stale).isSome = true := by
    intro trig state stale
    cases stale <;> simp [draw_operating_state]
  refine ⟨h1, ?_, rfl, rfl, rfl⟩
  intro trig s
  cases s with
  | Message msg => rfl
  | Operating state stale => exact h1 trig state stale

/-- C4: renderer.rs stale rendering emits the 90-degree-wide arc whose start
angle is the phase and emits neither a line nor a filled triangle (no
target-direction arrow); renderer.rs live rendering appends the arrow
command pair (shaft line, filled arrowhead) and emits no arc.  The main.rs
copy diverges: at stale phase 0 it emits the arrow commands and no arc. -/
theorem c4_arc_vs_arrow :
    (∀ (trig : Trig) (state : ServerState) (p : Nat), ∃ ops,
        draw_operating_state trig state (some p) = some ops ∧
        arcOp p ∈ ops ∧
        ops.all (fun op => !op.isLine && !op.isTriangleFill) = true) ∧
    (∀ (trig : Trig) (state : ServerState), ∃ pre,
        draw_operating_state trig state none =
          some (pre ++ arrowOps trig state.target_angle) ∧
        ((pre ++ arrowOps trig state.target_angle).all fun op => !op.isArc) = true ∧
        ((arrowOps trig state.target_angle).any fun op => op.isLine) = true ∧
        ((arrowOps trig state.target_angle).any fun op => op.isTriangleFill) = true) ∧
    (∃ ops, main_draw_operating_state trigZero eqSnapshot (some 0) = some ops ∧
        (ops.any fun op => op.isLine) = true ∧
        (ops.all fun op => !op.isArc) = true) := by
  refine ⟨?_, ?_, ?_⟩
  · intro trig state p
    refine ⟨_, rfl, ?_, ?_⟩
    · simp [List.mem_append]
    · cases halt : state.is_alt_az
      · simp [halt, offsetTextOps, letterOps, arcOp, DrawOp.isLine, DrawOp.isTriangleFill]
      · by_cases ht : 0 < state.tilt_target_distance <;>
          by_cases hr : 0 < state.rotation_target_distance <;>
            simp [halt, ht, hr, offsetTextOps, triangleOps, arcOp,
              DrawOp.isLine, DrawOp.isTriangleFill]
  · intro trig state
    refine ⟨_, rfl, ?_, ?_, ?_⟩
    · cases halt : state.is_alt_az
      · simp [halt, offsetTextOps, letterOps, arrowOps, DrawOp.isArc]
      · by_cases ht : 0 < state.tilt_target_distance <;>
          by_cases hr : 0 < state.rotation_target_distance <;>
            simp [halt, ht, hr, offsetTextOps, triangleOps, arrowOps, DrawOp.isArc]
    · simp [arrowOps, DrawOp.isLine]
    · simp [arrowOps, DrawOp.isTriangleFill]
  · refine ⟨_, rfl, ?_, ?_⟩
    · simp [main_draw_operating_state, eqSnapshot, offsetTextOps, letterOps,
        arrowOps, DrawOp.isLine, show (0 : ℚ) < 1 by norm_num,
        show (0 : ℚ) < 2 by norm_num]
    · simp [main_draw_operating_state, eqSnapshot, offsetTextOps, letterOps,
        arrowOps, DrawOp.isArc, show (0 : ℚ) < 1 by norm_num,
        show (0 : ℚ) < 2 by norm_num]

/-- C5: blink divergence for the cardinal letters of an equatorial mount.
In the main.rs copy of `draw_operating_state` (blink expression
`is_current || stale_angle.unwrap() % 72 < 36` with
`is_current = stale_angle.is_some()`), a stale render at phase 36 still
draws the top-left letter although `36 % 72 < 36` is false, and a live
render panics (`none`) instead of always drawing the letters; the
renderer.rs copy draws the letters unconditionally (stale renders merely
recolor them), so at stale phase 36 it also contradicts the blink rule. -/
theorem c5_cardinal_blink :
    Option.map (fun ops => ops.any DrawOp.isLetterTopLeft)
        (main_draw_operating_state trigZero eqSnapshot (some 36)) = some true ∧
    decide (36 % 72 < 36) = false ∧
    main_draw_operating_state trigZero
        { eqSnapshot with tilt_target_distance := 3 } none = none ∧
    (∀ (trig : Trig) (m : ServerMode) (slew : Bool) (r t a : ℚ) (sol : Bool) (p : Nat),
        Option.map (fun ops => ops.any DrawOp.isLetterTopLeft)
          (draw_operating_state trig
            { server_mode := m, is_alt_az := false, has_slew_request := slew,
              rotation_target_distance := r, tilt_target_distance := t,
              target_angle := a, has_solution := sol } (some p)) = some true) ∧
    (∀ (trig : Trig) (m : ServerMode) (slew : Bool) (r t a : ℚ) (sol : Bool),
        Option.map (fun ops => ops.any DrawOp.isLetterTopLeft)
          (draw_operating_state trig
            { server_mode := m, is_alt_az := false, has_slew_request := slew,
              rotation_target_distance := r, tilt_target_distance := t,
              target_angle := a, has_solution := sol } none) = some true) := by
  refine ⟨?_, by decide, rfl, ?_, ?_⟩
  · simp [main_draw_operating_state, eqSnapshot, offsetTextOps, letterOps,
      arrowOps, DrawOp.isLetterTopLeft, show (0 : ℚ) < 1 by norm_num,
      show (0 : ℚ) < 2 by norm_num]
  · intro trig m slew r t a sol p
    by_cases ht : 0 < t <;> by_cases hr : 0 < r <;>
      simp [ht, hr, draw_operating_state, offsetTextOps, letterOps, arcOp,
        DrawOp.isLetterTopLeft]
  · intro trig m slew r t a sol
    by_cases ht : 0 < t <;> by_cases hr : 0 < r <;>
      simp [ht, hr, draw_operating_state, offsetTextOps, letterOps, arrowOps,
        DrawOp.isLetterTopLeft]

end CypressDisplay
